import Mathlib

/-!
Shallow embedding of the `github.com/outbrain/log` Go package
(file `log.go`) and verification of its specification.

Modelling conventions:
* Go `type LogLevel int` becomes `Int`; the seven severity constants keep
  their names and iota values.
* The package-level mutable state (`globalLogLevel`) and the standard-error
  stream are gathered in an explicit `LogState` record that every operation
  threads; `os.Stderr` is modelled as the `String` of bytes written so far,
  and `fmt.Fprintln` appends the line followed by a newline character.
* `time.Now().Format(timeFormat)` is modelled by an explicit `now` parameter
  holding the already-formatted wall-clock string.
* Go `error` values are modelled by `Option GoError`; `GoError` carries the
  message (`s`, the field name of `errors.errorString`) and a `tag` that
  stands for allocation identity, so that a caller-supplied error can be
  told apart from a freshly constructed one with the same text.
* `fmt.Sprintf` is modelled by `goSprintf`, a faithful executable fragment
  of the Go fmt package covering literal text, the escape `%%`, the verbs
  `%s`, `%d`, `%v` (with optional `+` flag) over the argument kinds used by
  this package, and the fmt diagnostics `%!v(MISSING)` for verbs without an
  argument, `%!(NOVERB)` for a dangling percent and `%!(EXTRA ...)` for
  unconsumed arguments.
* `os.Exit(1)` terminates the process: the FATAL-family functions return the
  exit status together with the state at the moment of exit, and the Go code
  after the `os.Exit(1)` call (which is unreachable) is not modelled.
-/

/-- Go `type LogLevel int` from log.go. -/
abbrev LogLevel := Int

/-- `FATAL LogLevel = iota` (value 0) from log.go. -/
def FATAL : LogLevel := 0

/-- `CRITICAL` (value 1) from log.go. -/
def CRITICAL : LogLevel := 1

/-- `ERROR` (value 2) from log.go. -/
def ERROR : LogLevel := 2

/-- `WARNING` (value 3) from log.go. -/
def WARNING : LogLevel := 3

/-- `NOTICE` (value 4) from log.go. -/
def NOTICE : LogLevel := 4

/-- `INFO` (value 5) from log.go. -/
def INFO : LogLevel := 5

/-- `DEBUG` (value 6) from log.go. -/
def DEBUG : LogLevel := 6

/-- Go `func (this LogLevel) String() string`: a switch over the seven
constants, falling through to the literal "unknown". -/
def LogLevel.String (this : LogLevel) : String :=
  if this = FATAL then "FATAL"
  else if this = CRITICAL then "CRITICAL"
  else if this = ERROR then "ERROR"
  else if this = WARNING then "WARNING"
  else if this = NOTICE then "NOTICE"
  else if this = INFO then "INFO"
  else if this = DEBUG then "DEBUG"
  else "unknown"

/-- `const timeFormat = "2006-01-02 15:04:05"` from log.go. -/
def timeFormat : String := "2006-01-02 15:04:05"

/-- A Go `error` value as used by this package: `s` is the message (the
field name of the `errors.errorString` struct behind `errors.New`), and
`tag` models pointer identity, distinguishing error values that happen to
carry equal text. -/
structure GoError where
  s : String
  tag : Nat
deriving DecidableEq

/-- Go `errors.New`: wraps a string as a fresh error value (modelled with
identity tag 0). -/
def errorsNew (text : String) : GoError := ⟨text, 0⟩

/-- The dynamic values this package passes as `...interface{}` arguments:
strings and integers cover every call shape the specification mentions. -/
inductive GoValue where
  | str (s : String)
  | int (n : Int)
deriving DecidableEq

/-- Rendering of one argument under one fmt verb character, as the Go fmt
package does for these argument kinds: `%s` of a string is the string,
`%v`/`%d` of an integer is its decimal text, and a mismatched verb produces
the `%!verb(type=value)` diagnostic. -/
def goRenderVerb (c : Char) (v : GoValue) : String :=
  match c, v with
  | 's', .str s => s
  | 's', .int n => "%!s(int=" ++ toString n ++ ")"
  | 'v', .str s => s
  | 'v', .int n => toString n
  | 'd', .int n => toString n
  | 'd', .str s => "%!d(string=" ++ s ++ ")"
  | c, .str s => "%!" ++ c.toString ++ "(string=" ++ s ++ ")"
  | c, .int n => "%!" ++ c.toString ++ "(int=" ++ toString n ++ ")"

/-- The `type=value` description the Go fmt package prints for an argument
inside the `%!(EXTRA ...)` diagnostic. -/
def goExtraElem : GoValue → String
  | .str s => "string=" ++ s
  | .int n => "int=" ++ toString n

/-- The `%!(EXTRA type=value, ...)` suffix the Go fmt package appends when
arguments remain after the format string is exhausted (empty when none
remain). -/
def goExtra : List GoValue → String
  | [] => ""
  | args => "%!(EXTRA " ++ String.intercalate ", " (args.map goExtraElem) ++ ")"

/-- Character-level scanner of a Go format string: literal characters are
copied, `%%` emits a percent sign, a verb (optionally flagged with `+`)
consumes the next argument or emits `%!verb(MISSING)`, a dangling percent
emits `%!(NOVERB)`, and leftover arguments emit the EXTRA diagnostic. -/
def goSprintfAux : List Char → List GoValue → String
  | [], args => goExtra args
  | c :: rest, args =>
    if c = '%' then
      match rest, args with
      | [], args2 => "%!(NOVERB)" ++ goExtra args2
      | c2 :: rest2, args2 =>
        if c2 = '%' then "%" ++ goSprintfAux rest2 args2
        else if c2 = '+' then
          match rest2, args2 with
          | [], args3 => "%!(NOVERB)" ++ goExtra args3
          | c3 :: rest3, [] => "%!" ++ c3.toString ++ "(MISSING)" ++ goSprintfAux rest3 []
          | c3 :: rest3, a :: args3 => goRenderVerb c3 a ++ goSprintfAux rest3 args3
        else
          match args2 with
          | [] => "%!" ++ c2.toString ++ "(MISSING)" ++ goSprintfAux rest2 []
          | a :: args3 => goRenderVerb c2 a ++ goSprintfAux rest2 args3
    else c.toString ++ goSprintfAux rest args

/-- Go `fmt.Sprintf(format, args...)` on the fragment of formats and
argument kinds this package uses. -/
def goSprintf (format : String) (args : List GoValue) : String :=
  goSprintfAux format.data args

/-- The package-level state of log.go: `globalLogLevel` (`var globalLogLevel
LogLevel = DEBUG`) together with the bytes written to `os.Stderr`. -/
structure LogState where
  globalLogLevel : LogLevel
  stderr : String
deriving DecidableEq

/-- The initial state: `globalLogLevel` starts at DEBUG and nothing has been
written. -/
def initialLogState : LogState := ⟨DEBUG, ""⟩

/-- Go `func SetLevel(logLevel LogLevel)`: unconditionally overwrites the
global threshold. -/
def SetLevel (logLevel : LogLevel) (st : LogState) : LogState :=
  ⟨logLevel, st.stderr⟩

/-- Go `func GetLevel() LogLevel`: reads the global threshold. -/
def GetLevel (st : LogState) : LogLevel :=
  st.globalLogLevel

/-- Go `func logFormattedEntry(logLevel LogLevel, message string, args
...interface{}) string`: returns "" without I/O when `logLevel >
globalLogLevel`; otherwise renders `fmt.Sprintf("%s %s %s", now, logLevel,
fmt.Sprintf(message, args...))` (the outer Sprintf joins the three parts
with single spaces, rendering the level through its String method), writes
it with `fmt.Fprintln(os.Stderr, ...)` and returns it. -/
def logFormattedEntry (now : String) (logLevel : LogLevel) (message : String)
    (args : List GoValue) (st : LogState) : String × LogState :=
  if logLevel > st.globalLogLevel then ("", st)
  else
    let entryString := now ++ " " ++ LogLevel.String logLevel ++ " " ++ goSprintf message args
    (entryString, ⟨st.globalLogLevel, st.stderr ++ entryString ++ "\n"⟩)

/-- Go `func logEntry(logLevel LogLevel, message string, args
...interface{}) string`: appends `fmt.Sprintf(" %s", s)` for each argument
to the message, then calls `logFormattedEntry` with the combined string and
no arguments. -/
def logEntry (now : String) (logLevel : LogLevel) (message : String)
    (args : List GoValue) (st : LogState) : String × LogState :=
  let entryString := args.foldl (fun acc s => acc ++ goSprintf " %s" [s]) message
  logFormattedEntry now logLevel entryString [] st

/-- Go `func logErrorEntry(logLevel LogLevel, err error) error`: returns nil
at once for a nil error; otherwise renders `fmt.Sprintf("%+v", err)` (for an
error value this is its message text), logs it through `logEntry` with no
extra arguments, and returns the original error. -/
def logErrorEntry (now : String) (logLevel : LogLevel) (err : Option GoError)
    (st : LogState) : Option GoError × LogState :=
  match err with
  | none => (none, st)
  | some e =>
    let entryString := e.s
    let r := logEntry now logLevel entryString [] st
    (some e, r.2)

/-- Go `func Debug(message string, args ...interface{}) string`. -/
def Debug (now : String) (message : String) (args : List GoValue)
    (st : LogState) : String × LogState :=
  logEntry now DEBUG message args st

/-- Go `func Debugf(message string, args ...interface{}) string`. -/
def Debugf (now : String) (message : String) (args : List GoValue)
    (st : LogState) : String × LogState :=
  logFormattedEntry now DEBUG message args st

/-- Go `func Info(message string, args ...interface{}) string`. -/
def Info (now : String) (message : String) (args : List GoValue)
    (st : LogState) : String × LogState :=
  logEntry now INFO message args st

/-- Go `func Infof(message string, args ...interface{}) string`. -/
def Infof (now : String) (message : String) (args : List GoValue)
    (st : LogState) : String × LogState :=
  logFormattedEntry now INFO message args st

/-- Go `func Notice(message string, args ...interface{}) string`. -/
def Notice (now : String) (message : String) (args : List GoValue)
    (st : LogState) : String × LogState :=
  logEntry now NOTICE message args st

/-- Go `func Noticef(message string, args ...interface{}) string`. -/
def Noticef (now : String) (message : String) (args : List GoValue)
    (st : LogState) : String × LogState :=
  logFormattedEntry now NOTICE message args st

/-- Go `func Warning(message string, args ...interface{}) error`: wraps the
string returned by `logEntry` with `errors.New`. -/
def Warning (now : String) (message : String) (args : List GoValue)
    (st : LogState) : Option GoError × LogState :=
  let r := logEntry now WARNING message args st
  (some (errorsNew r.1), r.2)

/-- Go `func Warningf(message string, args ...interface{}) error`. -/
def Warningf (now : String) (message : String) (args : List GoValue)
    (st : LogState) : Option GoError × LogState :=
  let r := logFormattedEntry now WARNING message args st
  (some (errorsNew r.1), r.2)

/-- Go `func Error(message string, args ...interface{}) error`. -/
def Error (now : String) (message : String) (args : List GoValue)
    (st : LogState) : Option GoError × LogState :=
  let r := logEntry now ERROR message args st
  (some (errorsNew r.1), r.2)

/-- Go `func Errorf(message string, args ...interface{}) error`. -/
def Errorf (now : String) (message : String) (args : List GoValue)
    (st : LogState) : Option GoError × LogState :=
  let r := logFormattedEntry now ERROR message args st
  (some (errorsNew r.1), r.2)

/-- Go `func Errore(err error) error`: passthrough logging at ERROR. -/
def Errore (now : String) (err : Option GoError) (st : LogState) :
    Option GoError × LogState :=
  logErrorEntry now ERROR err st

/-- Go `func Critical(message string, args ...interface{}) error`. -/
def Critical (now : String) (message : String) (args : List GoValue)
    (st : LogState) : Option GoError × LogState :=
  let r := logEntry now CRITICAL message args st
  (some (errorsNew r.1), r.2)

/-- Go `func Criticalf(message string, args ...interface{}) error`. -/
def Criticalf (now : String) (message : String) (args : List GoValue)
    (st : LogState) : Option GoError × LogState :=
  let r := logFormattedEntry now CRITICAL message args st
  (some (errorsNew r.1), r.2)

/-- Go `func Criticale(err error) error`: passthrough logging at CRITICAL. -/
def Criticale (now : String) (err : Option GoError) (st : LogState) :
    Option GoError × LogState :=
  logErrorEntry now CRITICAL err st

/-- Go `func Fatal(message string, args ...interface{}) error`: calls
`logEntry(FATAL, ...)`, then `os.Exit(1)`; the trailing `return
errors.New(logEntry(CRITICAL, ...))` in the source is unreachable. The
model returns the exit status together with the state at exit. -/
def Fatal (now : String) (message : String) (args : List GoValue)
    (st : LogState) : Nat × LogState :=
  let r := logEntry now FATAL message args st
  (1, r.2)

/-- Go `func Fatalf(message string, args ...interface{}) error`: calls
`logEntry(FATAL, ...)`, then `os.Exit(1)`; the code after the exit is
unreachable. -/
def Fatalf (now : String) (message : String) (args : List GoValue)
    (st : LogState) : Nat × LogState :=
  let r := logEntry now FATAL message args st
  (1, r.2)

/-- Go `func Fatale(err error) error`: calls `logErrorEntry(FATAL, err)`,
then `os.Exit(1)`; the trailing `return err` is unreachable. -/
def Fatale (now : String) (err : Option GoError) (st : LogState) :
    Nat × LogState :=
  let r := logErrorEntry now FATAL err st
  (1, r.2)


/-!
Helper lemmas about the embedding, shared by the claim theorems below.
-/

/-- A format string without a percent character passes through the fmt
scanner unchanged (with no arguments supplied). -/
theorem goSprintfAux_no_pct (l : List Char) (h : '%' ∉ l) :
    goSprintfAux l [] = String.mk l := by
  induction l with
  | nil => rfl
  | cons c rest ih =>
    have hc : ¬ c = '%' := fun e => h (by rw [← e]; exact List.mem_cons_self c rest)
    have hrest : '%' ∉ rest := fun hm => h (List.mem_cons_of_mem _ hm)
    rw [goSprintfAux.eq_def]
    simp only [if_neg hc]
    rw [ih hrest]
    rfl

/-- A format string without a percent character is returned unchanged by
the modelled `fmt.Sprintf` when no arguments are supplied. -/
theorem goSprintf_no_pct (s : String) (h : '%' ∉ s.data) :
    goSprintf s [] = s := by
  cases s with
  | mk d => exact goSprintfAux_no_pct d h

/-- Appending a rendered entry and a newline strictly extends the stream. -/
theorem stderr_grows (s e : String) : s ++ e ++ "\n" ≠ s := by
  intro he
  have h1 := congrArg String.length he
  rw [String.length_append, String.length_append] at h1
  have h2 : ("\n" : String).length = 1 := rfl
  omega

/-- The rendered entry (timestamp, label and message joined by spaces) is
never the empty string. -/
theorem entry_ne_empty (a b c : String) : a ++ " " ++ b ++ " " ++ c ≠ "" := by
  intro he
  have h1 := congrArg String.length he
  rw [String.length_append, String.length_append, String.length_append] at h1
  have h2 : (" " : String).length = 1 := rfl
  have h3 : ("" : String).length = 0 := rfl
  omega

/-- Evaluation of `logFormattedEntry` in the emitting case. -/
theorem logFormattedEntry_emit (now : String) (lvl : LogLevel) (msg : String)
    (args : List GoValue) (st : LogState) (h : lvl ≤ st.globalLogLevel) :
    logFormattedEntry now lvl msg args st
      = (now ++ " " ++ LogLevel.String lvl ++ " " ++ goSprintf msg args,
         ⟨st.globalLogLevel,
          st.stderr ++ (now ++ " " ++ LogLevel.String lvl ++ " " ++ goSprintf msg args) ++ "\n"⟩) := by
  unfold logFormattedEntry
  rw [if_neg (show ¬ lvl > st.globalLogLevel from not_lt.mpr h)]

/-- Evaluation of `logFormattedEntry` in the suppressed case. -/
theorem logFormattedEntry_suppress (now : String) (lvl : LogLevel) (msg : String)
    (args : List GoValue) (st : LogState) (h : st.globalLogLevel < lvl) :
    logFormattedEntry now lvl msg args st = ("", st) := by
  unfold logFormattedEntry
  rw [if_pos (show lvl > st.globalLogLevel from h)]

/-- Evaluation of `logEntry` in the emitting case: the arguments are first
joined onto the message, then the combined string goes through the fmt
scanner with no arguments. -/
theorem logEntry_emit (now : String) (lvl : LogLevel) (msg : String)
    (args : List GoValue) (st : LogState) (h : lvl ≤ st.globalLogLevel) :
    logEntry now lvl msg args st
      = (now ++ " " ++ LogLevel.String lvl ++ " "
           ++ goSprintf (args.foldl (fun acc s => acc ++ goSprintf " %s" [s]) msg) [],
         ⟨st.globalLogLevel,
          st.stderr ++ (now ++ " " ++ LogLevel.String lvl ++ " "
           ++ goSprintf (args.foldl (fun acc s => acc ++ goSprintf " %s" [s]) msg) []) ++ "\n"⟩) :=
  logFormattedEntry_emit now lvl _ [] st h

/-- Evaluation of `logEntry` with no variadic arguments in the emitting
case. -/
theorem logEntry_emit_noargs (now : String) (lvl : LogLevel) (msg : String)
    (st : LogState) (h : lvl ≤ st.globalLogLevel) :
    logEntry now lvl msg [] st
      = (now ++ " " ++ LogLevel.String lvl ++ " " ++ goSprintf msg [],
         ⟨st.globalLogLevel,
          st.stderr ++ (now ++ " " ++ LogLevel.String lvl ++ " " ++ goSprintf msg []) ++ "\n"⟩) :=
  logFormattedEntry_emit now lvl msg [] st h

/-- Evaluation of `logEntry` in the suppressed case. -/
theorem logEntry_suppress (now : String) (lvl : LogLevel) (msg : String)
    (args : List GoValue) (st : LogState) (h : st.globalLogLevel < lvl) :
    logEntry now lvl msg args st = ("", st) :=
  logFormattedEntry_suppress now lvl _ [] st h

/-- `logFormattedEntry` never touches the global threshold. -/
theorem logFormattedEntry_level_frame (now : String) (lvl : LogLevel)
    (msg : String) (args : List GoValue) (st : LogState) :
    (logFormattedEntry now lvl msg args st).2.globalLogLevel = st.globalLogLevel := by
  unfold logFormattedEntry
  split
  · rfl
  · rfl

/-- `logEntry` never touches the global threshold. -/
theorem logEntry_level_frame (now : String) (lvl : LogLevel) (msg : String)
    (args : List GoValue) (st : LogState) :
    (logEntry now lvl msg args st).2.globalLogLevel = st.globalLogLevel :=
  logFormattedEntry_level_frame now lvl _ [] st

/-- `logErrorEntry` never touches the global threshold. -/
theorem logErrorEntry_level_frame (now : String) (lvl : LogLevel)
    (err : Option GoError) (st : LogState) :
    (logErrorEntry now lvl err st).2.globalLogLevel = st.globalLogLevel := by
  cases err with
  | none => rfl
  | some e => exact logEntry_level_frame now lvl e.s [] st

/-!
Claim theorems.
-/

/-- C1: for every severity S and global threshold T, an entry at severity S
is written to standard error iff ordinal(S) is at most ordinal(T); when
ordinal(S) exceeds ordinal(T) the formatting primitive performs no I/O and
returns the empty string. -/
theorem logFormattedEntry_gate (now : String) (lvl : LogLevel) (msg : String)
    (args : List GoValue) (st : LogState) :
    ((logFormattedEntry now lvl msg args st).2.stderr ≠ st.stderr
      ↔ lvl ≤ st.globalLogLevel)
    ∧ (st.globalLogLevel < lvl →
        (logFormattedEntry now lvl msg args st).2 = st
        ∧ (logFormattedEntry now lvl msg args st).1 = "") := by
  by_cases h : lvl ≤ st.globalLogLevel
  · rw [logFormattedEntry_emit now lvl msg args st h]
    exact ⟨iff_of_true (stderr_grows _ _) h, fun hlt => absurd hlt (not_lt.mpr h)⟩
  · have hlt : st.globalLogLevel < lvl := not_le.mp h
    rw [logFormattedEntry_suppress now lvl msg args st hlt]
    exact ⟨iff_of_false (by simp) h, fun _ => ⟨rfl, rfl⟩⟩

/-- Witness for C1: at threshold INFO, a DEBUG entry is suppressed, changes
no state and returns the empty string. -/
theorem logFormattedEntry_gate_w :
    (logFormattedEntry "t" DEBUG "m" [] ⟨INFO, ""⟩).2 = (⟨INFO, ""⟩ : LogState)
    ∧ (logFormattedEntry "t" DEBUG "m" [] ⟨INFO, ""⟩).1 = "" :=
  (logFormattedEntry_gate "t" DEBUG "m" [] ⟨INFO, ""⟩).2 (by decide)

/-- C6: every emitted entry is exactly the timestamp, the uppercase level
label and the message joined by single spaces, written to standard error
followed by a newline, and the same line is returned by the formatting
primitive; for the format convention, Infof with "count=%d" and 5 at a
permitting threshold produces a line ending in "count=5". -/
theorem logFormattedEntry_line_shape (now : String) (lvl : LogLevel)
    (msg : String) (args : List GoValue) (st : LogState)
    (h : lvl ≤ st.globalLogLevel) :
    (logFormattedEntry now lvl msg args st).1
      = now ++ " " ++ LogLevel.String lvl ++ " " ++ goSprintf msg args
    ∧ (logFormattedEntry now lvl msg args st).2.stderr
      = st.stderr ++ (logFormattedEntry now lvl msg args st).1 ++ "\n"
    ∧ "count=5".data <:+ (Infof "t" "count=%d" [GoValue.int 5] ⟨INFO, ""⟩).1.data := by
  rw [logFormattedEntry_emit now lvl msg args st h]
  exact ⟨rfl, rfl, by decide⟩

/-- Witness for C6: a concrete emitted INFO entry at threshold DEBUG. -/
theorem logFormattedEntry_line_shape_w :
    (logFormattedEntry "t" INFO "m" [] ⟨DEBUG, ""⟩).1
      = "t" ++ " " ++ LogLevel.String INFO ++ " " ++ goSprintf "m" [] :=
  (logFormattedEntry_line_shape "t" INFO "m" [] ⟨DEBUG, ""⟩ (by decide)).1

/-- C7: for every integer X, SetLevel(X) unconditionally overwrites the
global threshold (touching nothing else) and a subsequent GetLevel()
returns exactly X. -/
theorem setLevel_getLevel (x : LogLevel) (st : LogState) :
    GetLevel (SetLevel x st) = x ∧ SetLevel x st = ⟨x, st.stderr⟩ :=
  ⟨rfl, rfl⟩

/-- C8: the severity-to-label function maps ordinals 0..6 exactly to the
seven uppercase labels and every other integer to the literal "unknown". -/
theorem logLevel_string_labels (n : Int) (h : n < 0 ∨ 6 < n) :
    LogLevel.String 0 = "FATAL" ∧ LogLevel.String 1 = "CRITICAL"
    ∧ LogLevel.String 2 = "ERROR" ∧ LogLevel.String 3 = "WARNING"
    ∧ LogLevel.String 4 = "NOTICE" ∧ LogLevel.String 5 = "INFO"
    ∧ LogLevel.String 6 = "DEBUG" ∧ LogLevel.String n = "unknown" := by
  refine ⟨by decide, by decide, by decide, by decide, by decide, by decide, by decide, ?_⟩
  unfold LogLevel.String FATAL CRITICAL ERROR WARNING NOTICE INFO DEBUG
  rw [if_neg (show ¬ n = 0 by omega), if_neg (show ¬ n = 1 by omega),
      if_neg (show ¬ n = 2 by omega), if_neg (show ¬ n = 3 by omega),
      if_neg (show ¬ n = 4 by omega), if_neg (show ¬ n = 5 by omega),
      if_neg (show ¬ n = 6 by omega)]

/-- Witness for C8: the out-of-range ordinal 7 renders as "unknown". -/
theorem logLevel_string_labels_w :
    LogLevel.String 0 = "FATAL" ∧ LogLevel.String 1 = "CRITICAL"
    ∧ LogLevel.String 2 = "ERROR" ∧ LogLevel.String 3 = "WARNING"
    ∧ LogLevel.String 4 = "NOTICE" ∧ LogLevel.String 5 = "INFO"
    ∧ LogLevel.String 6 = "DEBUG" ∧ LogLevel.String 7 = "unknown" :=
  logLevel_string_labels 7 (by decide)

/-- Counterexample for C2: the concatenation-convention function Info does
interpret percent placeholders in the message, because the combined string
is re-fed to the format primitive with zero arguments: Info("%d") at
threshold DEBUG yields the fmt MISSING diagnostic instead of the literal
message. -/
theorem logEntry_pct_counterexample :
    (Info "t" "%d" [] ⟨DEBUG, ""⟩).1 = "t INFO %!d(MISSING)"
    ∧ (Info "t" "%d" [] ⟨DEBUG, ""⟩).1 ≠ "t INFO %d" := by decide

/-- C2 (amended): the concatenation-convention functions build the entry by
appending each argument preceded by a single space, then hand the combined
string to the format primitive with zero arguments, so percent verbs in it
are subject to format interpretation; when the combined string contains no
percent character no interpretation occurs, and in particular
Info("a","b","c") with threshold INFO produces a line ending in "a b c". -/
theorem logEntry_concatenation (now : String) (lvl : LogLevel) (msg : String)
    (args : List GoValue) (st : LogState)
    (hpct : '%' ∉ (args.foldl (fun acc s => acc ++ goSprintf " %s" [s]) msg).data)
    (h : lvl ≤ st.globalLogLevel) :
    logEntry now lvl msg args st
      = logFormattedEntry now lvl
          (args.foldl (fun acc s => acc ++ goSprintf " %s" [s]) msg) [] st
    ∧ (logEntry now lvl msg args st).1
      = now ++ " " ++ LogLevel.String lvl ++ " "
          ++ args.foldl (fun acc s => acc ++ goSprintf " %s" [s]) msg
    ∧ "a b c".data <:+ (Info "t" "a" [GoValue.str "b", GoValue.str "c"] ⟨INFO, ""⟩).1.data := by
  refine ⟨rfl, ?_, by decide⟩
  show (logFormattedEntry now lvl
          (args.foldl (fun acc s => acc ++ goSprintf " %s" [s]) msg) [] st).1 = _
  rw [logFormattedEntry_emit now lvl _ [] st h,
      goSprintf_no_pct (args.foldl (fun acc s => acc ++ goSprintf " %s" [s]) msg) hpct]

/-- Witness for C2 (amended): Info("a", "b") at threshold DEBUG. -/
theorem logEntry_concatenation_w :
    (logEntry "t" INFO "a" [GoValue.str "b"] ⟨DEBUG, ""⟩).1
      = "t" ++ " " ++ LogLevel.String INFO ++ " "
        ++ [GoValue.str "b"].foldl (fun acc s => acc ++ goSprintf " %s" [s]) "a" :=
  (logEntry_concatenation "t" INFO "a" [GoValue.str "b"] ⟨DEBUG, ""⟩
    (by decide) (by decide)).2.1

/-- C3: Warning, Warningf, Error, Errorf, Critical and Criticalf always
return a non-nil error value wrapping the rendered string (here: the value
is literally some error built by errorsNew from the rendered string), even
when the entry is suppressed; in particular with threshold FATAL, Warning
performs no write and returns a non-nil error wrapping the empty string. -/
theorem error_wrapping (now : String) (msg : String) (args : List GoValue)
    (st : LogState) :
    (Warning now msg args st).1 = some (errorsNew (logEntry now WARNING msg args st).1)
    ∧ (Warningf now msg args st).1 = some (errorsNew (logFormattedEntry now WARNING msg args st).1)
    ∧ (Error now msg args st).1 = some (errorsNew (logEntry now ERROR msg args st).1)
    ∧ (Errorf now msg args st).1 = some (errorsNew (logFormattedEntry now ERROR msg args st).1)
    ∧ (Critical now msg args st).1 = some (errorsNew (logEntry now CRITICAL msg args st).1)
    ∧ (Criticalf now msg args st).1 = some (errorsNew (logFormattedEntry now CRITICAL msg args st).1)
    ∧ (st.globalLogLevel = FATAL →
        (Warning now msg args st).2.stderr = st.stderr
        ∧ (Warning now msg args st).1 = some (errorsNew "")) := by
  refine ⟨rfl, rfl, rfl, rfl, rfl, rfl, fun hf => ?_⟩
  have hs : st.globalLogLevel < WARNING := by rw [hf]; decide
  have hl : logEntry now WARNING msg args st = ("", st) :=
    logEntry_suppress now WARNING msg args st hs
  constructor
  · show (logEntry now WARNING msg args st).2.stderr = st.stderr
    rw [hl]
  · show some (errorsNew (logEntry now WARNING msg args st).1) = some (errorsNew "")
    rw [hl]

/-- Witness for C3: Warning at threshold FATAL writes nothing and returns a
non-nil error wrapping the empty string. -/
theorem error_wrapping_w :
    (Warning "t" "m" [] ⟨FATAL, "x"⟩).2.stderr = "x"
    ∧ (Warning "t" "m" [] ⟨FATAL, "x"⟩).1 = some (errorsNew "") :=
  (error_wrapping "t" "m" [] ⟨FATAL, "x"⟩).2.2.2.2.2.2 rfl

/-- Counterexample for C4: the FATAL entry points do not emit regardless of
the global threshold: SetLevel accepts the out-of-enumeration threshold -1
(numerically stricter than FATAL), and Fatal then writes nothing before
exiting with status 1. -/
theorem fatal_counterexample :
    (SetLevel (-1) initialLogState).globalLogLevel = -1
    ∧ (Fatal "t" "m" [] ⟨-1, ""⟩).2.stderr = ""
    ∧ (Fatal "t" "m" [] ⟨-1, ""⟩).1 = 1 := by decide

/-- C4 (amended): the three FATAL entry points route through the
threshold-checked emission path, so they render and emit their entry
whenever the threshold is at least ordinal 0 (which covers all seven
defined severities, so only negative out-of-enumeration thresholds
suppress the write), and in every case they then terminate the process
with exit status 1 immediately after the emission attempt, never
returning. -/
theorem fatal_family (now : String) (msg : String) (args : List GoValue)
    (e : GoError) (st : LogState) :
    (Fatal now msg args st).1 = 1
    ∧ (Fatalf now msg args st).1 = 1
    ∧ (Fatale now (some e) st).1 = 1
    ∧ (FATAL ≤ st.globalLogLevel →
        (Fatal now msg args st).2.stderr
          = st.stderr ++ (logEntry now FATAL msg args st).1 ++ "\n"
        ∧ (Fatalf now msg args st).2.stderr
          = st.stderr ++ (logEntry now FATAL msg args st).1 ++ "\n"
        ∧ (Fatale now (some e) st).2.stderr
          = st.stderr ++ (logEntry now FATAL e.s [] st).1 ++ "\n"
        ∧ (logEntry now FATAL msg args st).1 ≠ ""
        ∧ (logEntry now FATAL e.s [] st).1 ≠ "") := by
  refine ⟨rfl, rfl, rfl, fun h => ?_⟩
  have h4 := logEntry_emit now FATAL msg args st h
  have h5 := logEntry_emit_noargs now FATAL e.s st h
  refine ⟨?_, ?_, ?_, ?_, ?_⟩
  · show (logEntry now FATAL msg args st).2.stderr
      = st.stderr ++ (logEntry now FATAL msg args st).1 ++ "\n"
    rw [h4]
  · show (logEntry now FATAL msg args st).2.stderr
      = st.stderr ++ (logEntry now FATAL msg args st).1 ++ "\n"
    rw [h4]
  · show (logEntry now FATAL e.s [] st).2.stderr
      = st.stderr ++ (logEntry now FATAL e.s [] st).1 ++ "\n"
    rw [h5]
  · rw [h4]
    exact entry_ne_empty _ _ _
  · rw [h5]
    exact entry_ne_empty _ _ _

/-- Witness for C4 (amended): at the initial threshold DEBUG, Fatal writes
its entry and exits with status 1. -/
theorem fatal_family_w :
    (Fatal "t" "m" [] initialLogState).2.stderr
      = initialLogState.stderr ++ (logEntry "t" FATAL "m" [] initialLogState).1 ++ "\n" :=
  ((fatal_family "t" "m" [] ⟨"e", 0⟩ initialLogState).2.2.2 (by decide)).1

/-- Counterexample for C5: with a permitting threshold, Errore on an error
whose text contains a percent verb writes a line that does not contain the
error's rendered text (the verb is replaced by the fmt MISSING
diagnostic), so the written line is not as the claim states it. -/
theorem error_passthrough_counterexample :
    (Errore "t" (some ⟨"100%d", 0⟩) initialLogState).2.stderr
      = "t ERROR 100%!d(MISSING)\n"
    ∧ ¬ ("100%d".data <:+: "t ERROR 100%!d(MISSING)\n".data) := by decide

/-- C5 (amended): Errore and Criticale each return nil at once for a nil
input, regardless of threshold and with no write; for a non-nil input each
returns exactly the original error value unchanged (not a re-wrapped one),
and, when the threshold permits its severity, each writes a line carrying
the result of passing the error text through the format step with zero
arguments — equal to the error text itself whenever it contains no percent
character; below its threshold each leaves the state untouched. -/
theorem error_passthrough (now : String) (e : GoError) (st : LogState) :
    Errore now none st = (none, st)
    ∧ Criticale now none st = (none, st)
    ∧ (Errore now (some e) st).1 = some e
    ∧ (Criticale now (some e) st).1 = some e
    ∧ (ERROR ≤ st.globalLogLevel →
        (Errore now (some e) st).2.stderr
          = st.stderr ++ (now ++ " " ++ LogLevel.String ERROR ++ " " ++ goSprintf e.s []) ++ "\n")
    ∧ (CRITICAL ≤ st.globalLogLevel →
        (Criticale now (some e) st).2.stderr
          = st.stderr ++ (now ++ " " ++ LogLevel.String CRITICAL ++ " " ++ goSprintf e.s []) ++ "\n")
    ∧ ('%' ∉ e.s.data → ERROR ≤ st.globalLogLevel →
        (Errore now (some e) st).2.stderr
          = st.stderr ++ (now ++ " " ++ LogLevel.String ERROR ++ " " ++ e.s) ++ "\n")
    ∧ ('%' ∉ e.s.data → CRITICAL ≤ st.globalLogLevel →
        (Criticale now (some e) st).2.stderr
          = st.stderr ++ (now ++ " " ++ LogLevel.String CRITICAL ++ " " ++ e.s) ++ "\n")
    ∧ (st.globalLogLevel < ERROR → (Errore now (some e) st).2 = st)
    ∧ (st.globalLogLevel < CRITICAL → (Criticale now (some e) st).2 = st) := by
  refine ⟨rfl, rfl, rfl, rfl, fun h => ?_, fun h => ?_, fun hp h => ?_, fun hp h => ?_,
    fun h => ?_, fun h => ?_⟩
  · show (logEntry now ERROR e.s [] st).2.stderr = _
    rw [logEntry_emit_noargs now ERROR e.s st h]
  · show (logEntry now CRITICAL e.s [] st).2.stderr = _
    rw [logEntry_emit_noargs now CRITICAL e.s st h]
  · show (logEntry now ERROR e.s [] st).2.stderr = _
    rw [logEntry_emit_noargs now ERROR e.s st h, goSprintf_no_pct e.s hp]
  · show (logEntry now CRITICAL e.s [] st).2.stderr = _
    rw [logEntry_emit_noargs now CRITICAL e.s st h, goSprintf_no_pct e.s hp]
  · show (logEntry now ERROR e.s [] st).2 = st
    rw [logEntry_suppress now ERROR e.s [] st h]
  · show (logEntry now CRITICAL e.s [] st).2 = st
    rw [logEntry_suppress now CRITICAL e.s [] st h]

/-- Witness for C5 (amended): a concrete non-nil error without a percent
character, at the initial threshold, for both passthrough operations. -/
theorem error_passthrough_w :
    (Errore "t" (some ⟨"boom", 3⟩) initialLogState).2.stderr
      = initialLogState.stderr
        ++ ("t" ++ " " ++ LogLevel.String ERROR ++ " " ++ (GoError.mk "boom" 3).s) ++ "\n"
    ∧ (Criticale "t" (some ⟨"boom", 3⟩) initialLogState).2.stderr
      = initialLogState.stderr
        ++ ("t" ++ " " ++ LogLevel.String CRITICAL ++ " " ++ (GoError.mk "boom" 3).s) ++ "\n" :=
  ⟨(error_passthrough "t" ⟨"boom", 3⟩ initialLogState).2.2.2.2.2.2.1 (by decide) (by decide),
   (error_passthrough "t" ⟨"boom", 3⟩ initialLogState).2.2.2.2.2.2.2.1 (by decide) (by decide)⟩

/-- C9: every logging operation leaves the global threshold unchanged, and
SetLevel is the only operation of the public surface that modifies it. -/
theorem global_level_frame (now : String) (msg : String) (args : List GoValue)
    (err : Option GoError) (x : LogLevel) (st : LogState) :
    (Debug now msg args st).2.globalLogLevel = st.globalLogLevel
    ∧ (Debugf now msg args st).2.globalLogLevel = st.globalLogLevel
    ∧ (Info now msg args st).2.globalLogLevel = st.globalLogLevel
    ∧ (Infof now msg args st).2.globalLogLevel = st.globalLogLevel
    ∧ (Notice now msg args st).2.globalLogLevel = st.globalLogLevel
    ∧ (Noticef now msg args st).2.globalLogLevel = st.globalLogLevel
    ∧ (Warning now msg args st).2.globalLogLevel = st.globalLogLevel
    ∧ (Warningf now msg args st).2.globalLogLevel = st.globalLogLevel
    ∧ (Error now msg args st).2.globalLogLevel = st.globalLogLevel
    ∧ (Errorf now msg args st).2.globalLogLevel = st.globalLogLevel
    ∧ (Errore now err st).2.globalLogLevel = st.globalLogLevel
    ∧ (Critical now msg args st).2.globalLogLevel = st.globalLogLevel
    ∧ (Criticalf now msg args st).2.globalLogLevel = st.globalLogLevel
    ∧ (Criticale now err st).2.globalLogLevel = st.globalLogLevel
    ∧ (Fatal now msg args st).2.globalLogLevel = st.globalLogLevel
    ∧ (Fatalf now msg args st).2.globalLogLevel = st.globalLogLevel
    ∧ (Fatale now err st).2.globalLogLevel = st.globalLogLevel
    ∧ (SetLevel x st).globalLogLevel = x
    ∧ GetLevel st = st.globalLogLevel :=
  ⟨logEntry_level_frame now DEBUG msg args st,
   logFormattedEntry_level_frame now DEBUG msg args st,
   logEntry_level_frame now INFO msg args st,
   logFormattedEntry_level_frame now INFO msg args st,
   logEntry_level_frame now NOTICE msg args st,
   logFormattedEntry_level_frame now NOTICE msg args st,
   logEntry_level_frame now WARNING msg args st,
   logFormattedEntry_level_frame now WARNING msg args st,
   logEntry_level_frame now ERROR msg args st,
   logFormattedEntry_level_frame now ERROR msg args st,
   logErrorEntry_level_frame now ERROR err st,
   logEntry_level_frame now CRITICAL msg args st,
   logFormattedEntry_level_frame now CRITICAL msg args st,
   logErrorEntry_level_frame now CRITICAL err st,
   logEntry_level_frame now FATAL msg args st,
   logEntry_level_frame now FATAL msg args st,
   logErrorEntry_level_frame now FATAL err st,
   rfl, rfl⟩

/-- C10: the error-passthrough path feeds the error text through the
positional format step with zero arguments: for every non-nil error whose
text has no percent character the emitted message part equals the text
exactly, while for an error text with a percent verb the emitted message
differs from the text. -/
theorem logErrorEntry_format_pass (now : String) (lvl : LogLevel)
    (e : GoError) (st : LogState) (hp : '%' ∉ e.s.data)
    (h : lvl ≤ st.globalLogLevel) :
    (logErrorEntry now lvl (some e) st).2.stderr
      = st.stderr ++ (now ++ " " ++ LogLevel.String lvl ++ " " ++ e.s) ++ "\n"
    ∧ (Errore "t" (some ⟨"50%s off", 1⟩) initialLogState).2.stderr
      = "t ERROR 50%!s(MISSING) off\n"
    ∧ "50%!s(MISSING) off" ≠ "50%s off" := by
  refine ⟨?_, by decide, by decide⟩
  show (logEntry now lvl e.s [] st).2.stderr = _
  rw [logEntry_emit_noargs now lvl e.s st h, goSprintf_no_pct e.s hp]

/-- Witness for C10: a percent-free error text at the initial threshold is
emitted verbatim. -/
theorem logErrorEntry_format_pass_w :
    (logErrorEntry "t" ERROR (some ⟨"disk full", 2⟩) initialLogState).2.stderr
      = initialLogState.stderr
        ++ ("t" ++ " " ++ LogLevel.String ERROR ++ " " ++ (GoError.mk "disk full" 2).s) ++ "\n" :=
  (logErrorEntry_format_pass "t" ERROR ⟨"disk full", 2⟩ initialLogState
    (by decide) (by decide)).1
